import Mathlib

/-!
# Verification of rotation-updater

Shallow embedding of the `rotation-updater` AWS-lambda sources and proofs
about them.  The repository carries three revisions of the lambda side by
side:

* `src/index.js` — variant A (single combined `Record` table); embedded
  below in namespace `IndexJs`.
* the first revision in the unnamed source file — variant A with reusable
  client handles, an HTTP `resp.ok` check in `updateSlackUserGroup`, and
  the member/secret checks in the short-circuit order; embedded in
  namespace `Part002`.
* the second revision in the unnamed source file — variant B (split
  `Team` / `User` tables); embedded in namespace `VariantB`.

External collaborators are modelled by their assumed contracts: the
DynamoDB document store is a string-keyed association list with full-item
get/put/delete; the secrets manager is an `Option String`; the Slack chat
API is an arbitrary function from requests to responses supplied as part
of the world.  `console.log` calls are pure observations and are not
modelled; every other branch of the JavaScript is mirrored one-for-one.
-/

set_option autoImplicit false

namespace RotationUpdater

/-- JSON values, used for the contents of serialized response bodies
(`JSON.stringify(x)` is modelled by the JSON value `x` itself). -/
inductive Json where
  | str : String → Json
  | arr : List Json → Json
  | obj : List (String × Json) → Json

/-- A member entry of a rotation record: VictorOps user id paired with the
corresponding Slack user id (class `Member` in the source). -/
structure Member where
  victorOpsUserId : String
  slackUserId : String
deriving DecidableEq

/-- A rotation mapping record (class `Record` in the source): VictorOps
group id (primary key), Slack user group id, and the ordered member list. -/
structure Record where
  victorOpsGroupId : String
  slackUserGroupId : String
  members : List Member
deriving DecidableEq

/-- `Record.getSlackUserId` as written in the first unnamed-file revision:
`this.members.find((m) => m.victorOpsUserId === victorOpsUserId)?.slackUserId`. -/
def Record.getSlackUserId (r : Record) (victorOpsUserId : String) : Option String :=
  (r.members.find? (fun m => m.victorOpsUserId == victorOpsUserId)).map Member.slackUserId

/-- JSON serialization of a `Member` (field insertion order of the class). -/
def encodeMember (m : Member) : Json :=
  .obj [("victorOpsUserId", .str m.victorOpsUserId), ("slackUserId", .str m.slackUserId)]

/-- JSON serialization of a `Record` (field insertion order of the class),
as produced by `JSON.stringify` on a `Record` instance. -/
def encodeRecord (r : Record) : Json :=
  .obj [("victorOpsGroupId", .str r.victorOpsGroupId),
        ("slackUserGroupId", .str r.slackUserGroupId),
        ("members", .arr (r.members.map encodeMember))]

/-- A DynamoDB table: an association list from primary-key string to item.
The store invariant (at most one item per key) is maintained by `dbPut`. -/
abbrev Table (α : Type) := List (String × α)

/-- DynamoDB `get`: point lookup by primary key, absence is `none`. -/
def dbGet {α : Type} (s : Table α) (k : String) : Option α :=
  (s.find? (fun p => p.1 == k)).map Prod.snd

/-- DynamoDB `put`: full overwrite of the item stored under the key. -/
def dbPut {α : Type} (s : Table α) (k : String) (v : α) : Table α :=
  (k, v) :: s.filter (fun p => p.1 != k)

/-- DynamoDB `delete`: removes the item under the key; a missing item is
not an error. -/
def dbDelete {α : Type} (s : Table α) (k : String) : Table α :=
  s.filter (fun p => p.1 != k)

/-- A request issued to the Slack `usergroups.users.update` endpoint:
`usergroup` and `users` form the JSON body, `authToken` the bearer token
of the `Authorization` header. -/
structure ChatRequest where
  usergroup : String
  users : String
  authToken : String
deriving DecidableEq

/-- The chat API's answer to a request: HTTP success flag (`resp.ok`) and
the parsed JSON body (`resp.json()`). -/
structure ChatResult where
  ok : Bool
  body : Json

/-- The external world a variant-A invocation runs against: the rotations
table, what secret retrieval returns, the chat API's behaviour, and the
JSON acknowledgment object DynamoDB answers a `put` with. -/
structure World where
  store : Table Record
  secret : Option String
  chat : ChatRequest → ChatResult
  putAck : Json

/-- A JavaScript exception escaping a handler. -/
inductive JsError where
  | typeError : JsError
deriving DecidableEq

/-- The value a handler returns: `null`, the bare empty object, or an
object of shape with a `body` field holding a JSON-serialized value. -/
inductive JsResp where
  | rnull : JsResp
  | emptyObj : JsResp
  | withBody : Json → JsResp

/-- Output of `handleUpdateOnCall`: the returned value together with the
observable effects (number of secret retrievals, issued chat calls, and
rotation-table reads). -/
structure UOCOut where
  resp : JsResp
  secretGets : Nat
  chatCalls : List ChatRequest
  storeGets : Nat

/-- Output of the top-level dispatcher: the invocation's result (or the
escaped exception), the rotations table afterwards, and effect counters. -/
structure HandlerOut where
  result : Except JsError JsResp
  store : Table Record
  secretGets : Nat
  chatCalls : List ChatRequest
  storeGets : Nat
  storePuts : Nat
  storeDeletes : Nat

/-- An inbound lambda event.  Fields the JavaScript reads are modelled as
present strings except `members`, whose possible absence is what claim
C10 is about. -/
structure Event where
  operation : String
  group : String
  user : String
  victorOpsGroupId : String
  slackUserGroupId : String
  victorOpsUserId : String
  slackUserId : String
  members : Option (List Member)

/-- `getRotation`: DynamoDB point lookup on the rotations table followed
by reconstruction of a `Record` from the raw item (identical in both
variant-A revisions). -/
def getRotation (store : Table Record) (victorOpsGroupId : String) : Option Record :=
  match dbGet store victorOpsGroupId with
  | none => none
  | some item =>
      some (Record.mk item.victorOpsGroupId item.slackUserGroupId
        (item.members.map (fun m => Member.mk m.victorOpsUserId m.slackUserId)))

namespace IndexJs

/-- `Record.getSlackUserId` as written in `src/index.js`: a for-loop over
`this.members` that stores the first matching member's `slackUserId` and
breaks; `null` when no member matches. -/
def getSlackUserIdGo : List Member → String → Option String
  | [], _ => none
  | m :: ms, u =>
      if m.victorOpsUserId == u then some m.slackUserId else getSlackUserIdGo ms u

/-- The `src/index.js` member lookup, entered at the record's member list. -/
def getSlackUserId (r : Record) (victorOpsUserId : String) : Option String :=
  getSlackUserIdGo r.members victorOpsUserId

/-- `updateSlackUserGroup` in `src/index.js`: POSTs the body
`usergroup`/`users` with the bearer token and returns `resp.json()`
unconditionally — there is no `resp.ok` check in this revision.  The
second component records the requests issued. -/
def updateSlackUserGroup (slackUserGroup slackUser botUserOAuthToken : String)
    (chat : ChatRequest → ChatResult) : Json × List ChatRequest :=
  let req : ChatRequest := ⟨slackUserGroup, slackUser, botUserOAuthToken⟩
  let resp := chat req
  (resp.body, [req])

/-- `handleUpdateOnCall` in `src/index.js`.  Note the order: the secret is
retrieved right after the member lookup, before either null check runs, so
every invocation that finds a rotation record performs one secret
retrieval. -/
def handleUpdateOnCall (event : Event) (w : World) : UOCOut :=
  match getRotation w.store event.group with
  | none => ⟨.rnull, 0, [], 1⟩
  | some record =>
      let slackUser := getSlackUserId record event.user
      let secret := w.secret
      match slackUser with
      | none => ⟨.rnull, 1, [], 1⟩
      | some su =>
          match secret with
          | none => ⟨.rnull, 1, [], 1⟩
          | some sec =>
              let out := updateSlackUserGroup record.slackUserGroupId su sec w.chat
              ⟨.withBody out.1, 1, out.2, 1⟩

/-- `handlePutRotation` in `src/index.js`: builds the `Record` from the
event (throwing a `TypeError` when `event.members` is absent, since
`undefined.map` is evaluated before anything else), writes it, and returns
the bare empty object. -/
def handlePutRotation (event : Event) (store : Table Record) :
    Except JsError (Table Record × JsResp) :=
  match event.members with
  | none => .error .typeError
  | some ms =>
      let record : Record :=
        ⟨event.victorOpsGroupId, event.slackUserGroupId,
          ms.map (fun m => Member.mk m.victorOpsUserId m.slackUserId)⟩
      .ok (dbPut store record.victorOpsGroupId record, .emptyObj)

/-- `handleGetRotation` in `src/index.js`: the body is
`JSON.stringify(resp?.Item ?? ...)` where `resp` is the `Record` (or null)
returned by `getRotation`.  A `Record` instance has no `Item` property, so
`resp?.Item` is `undefined` in both cases and the body is always the empty
object. -/
def handleGetRotation (event : Event) (store : Table Record) : JsResp :=
  match getRotation store event.victorOpsGroupId with
  | none => .withBody (.obj [])
  | some _ => .withBody (.obj [])

/-- `handleDeleteRotation` in `src/index.js`: deletes by key; the DynamoDB
delete acknowledgment has no `Item` attribute, so the body is always the
empty object. -/
def handleDeleteRotation (event : Event) (store : Table Record) :
    Table Record × JsResp :=
  (dbDelete store event.victorOpsGroupId, .withBody (.obj []))

/-- The `src/index.js` dispatcher: a switch on `event.operation` over the
four operation names, with a log-only default branch leaving the result at
the initial bare empty object. -/
def handler (event : Event) (w : World) : HandlerOut :=
  if event.operation = "updateOnCall" then
    let o := handleUpdateOnCall event w
    ⟨.ok o.resp, w.store, o.secretGets, o.chatCalls, o.storeGets, 0, 0⟩
  else if event.operation = "putRotation" then
    match handlePutRotation event w.store with
    | .error e => ⟨.error e, w.store, 0, [], 0, 0, 0⟩
    | .ok (s, r) => ⟨.ok r, s, 0, [], 0, 1, 0⟩
  else if event.operation = "getRotation" then
    ⟨.ok (handleGetRotation event w.store), w.store, 0, [], 1, 0, 0⟩
  else if event.operation = "deleteRotation" then
    let o := handleDeleteRotation event w.store
    ⟨.ok o.2, o.1, 0, [], 0, 0, 1⟩
  else
    ⟨.ok .emptyObj, w.store, 0, [], 0, 0, 0⟩

end IndexJs

namespace Part002

/-- `updateSlackUserGroup` in the first unnamed-file revision: POSTs the
body and, when `resp.ok` is false, logs and returns `undefined` without
parsing; otherwise returns `resp.json()`. -/
def updateSlackUserGroup (slackUserGroup slackUser botUserOAuthToken : String)
    (chat : ChatRequest → ChatResult) : Option Json × List ChatRequest :=
  let req : ChatRequest := ⟨slackUserGroup, slackUser, botUserOAuthToken⟩
  let resp := chat req
  if resp.ok then (some resp.body, [req]) else (none, [req])

/-- `handleUpdateOnCall` in the first unnamed-file revision: rotation
lookup, member lookup, secret retrieval, chat call — in that order, each
step returning `null` on absence before the next one runs.  The final
body is `JSON.stringify(resp ?? ...)`, the empty object standing in when
the updater returned `undefined`. -/
def handleUpdateOnCall (event : Event) (w : World) : UOCOut :=
  match getRotation w.store event.group with
  | none => ⟨.rnull, 0, [], 1⟩
  | some record =>
      match record.getSlackUserId event.user with
      | none => ⟨.rnull, 0, [], 1⟩
      | some su =>
          match w.secret with
          | none => ⟨.rnull, 1, [], 1⟩
          | some sec =>
              let out := updateSlackUserGroup record.slackUserGroupId su sec w.chat
              match out.1 with
              | none => ⟨.withBody (.obj []), 1, out.2, 1⟩
              | some j => ⟨.withBody j, 1, out.2, 1⟩

/-- `handlePutRotation` in the first unnamed-file revision: same write as
`src/index.js`, but the response echoes the DynamoDB acknowledgment:
`body: JSON.stringify(resp ?? ...)` with `resp` the non-null put
acknowledgment. -/
def handlePutRotation (event : Event) (store : Table Record) (putAck : Json) :
    Except JsError (Table Record × JsResp) :=
  match event.members with
  | none => .error .typeError
  | some ms =>
      let record : Record :=
        ⟨event.victorOpsGroupId, event.slackUserGroupId,
          ms.map (fun m => Member.mk m.victorOpsUserId m.slackUserId)⟩
      .ok (dbPut store record.victorOpsGroupId record, .withBody putAck)

/-- `handleGetRotation` in the first unnamed-file revision: the body is
`JSON.stringify(resp ?? ...)`, the serialized `Record` when found and the
empty object otherwise. -/
def handleGetRotation (event : Event) (store : Table Record) : JsResp :=
  match getRotation store event.victorOpsGroupId with
  | none => .withBody (.obj [])
  | some r => .withBody (encodeRecord r)

/-- `handleDeleteRotation` in the first unnamed-file revision: same shape
as `src/index.js` (`resp?.Item ?? ...` on an acknowledgment without an
`Item`). -/
def handleDeleteRotation (event : Event) (store : Table Record) :
    Table Record × JsResp :=
  (dbDelete store event.victorOpsGroupId, .withBody (.obj []))

/-- The dispatcher of the first unnamed-file revision: same switch as
`src/index.js`, with `handlePutRotation` echoing the put acknowledgment. -/
def handler (event : Event) (w : World) : HandlerOut :=
  if event.operation = "updateOnCall" then
    let o := handleUpdateOnCall event w
    ⟨.ok o.resp, w.store, o.secretGets, o.chatCalls, o.storeGets, 0, 0⟩
  else if event.operation = "putRotation" then
    match handlePutRotation event w.store w.putAck with
    | .error e => ⟨.error e, w.store, 0, [], 0, 0, 0⟩
    | .ok (s, r) => ⟨.ok r, s, 0, [], 0, 1, 0⟩
  else if event.operation = "getRotation" then
    ⟨.ok (handleGetRotation event w.store), w.store, 0, [], 1, 0, 0⟩
  else if event.operation = "deleteRotation" then
    let o := handleDeleteRotation event w.store
    ⟨.ok o.2, o.1, 0, [], 0, 0, 1⟩
  else
    ⟨.ok .emptyObj, w.store, 0, [], 0, 0, 0⟩

end Part002

namespace VariantB

/-- Class `Team` of the split-table revision: VictorOps group id (primary
key) paired with the Slack user group id. -/
structure Team where
  victorOpsGroupId : String
  slackUserGroupId : String
deriving DecidableEq

/-- Class `User` of the split-table revision: VictorOps user id (primary
key) paired with the Slack user id. -/
structure User where
  victorOpsUserId : String
  slackUserId : String
deriving DecidableEq

/-- The external world of a split-table invocation: the two tables plus
the shared secret / chat / put-acknowledgment collaborators. -/
structure WorldB where
  teams : Table Team
  users : Table User
  secret : Option String
  chat : ChatRequest → ChatResult
  putAck : Json

/-- Output of the split-table dispatcher: result or escaped exception,
both tables afterwards, and effect counters. -/
structure HandlerOutB where
  result : Except JsError JsResp
  teams : Table Team
  users : Table User
  secretGets : Nat
  chatCalls : List ChatRequest
  storeGets : Nat
  storePuts : Nat
  storeDeletes : Nat

/-- JSON serialization of a `Team` (field insertion order of the class). -/
def encodeTeam (t : Team) : Json :=
  .obj [("victorOpsGroupId", .str t.victorOpsGroupId),
        ("slackUserGroupId", .str t.slackUserGroupId)]

/-- JSON serialization of a `User` (field insertion order of the class). -/
def encodeUser (u : User) : Json :=
  .obj [("victorOpsUserId", .str u.victorOpsUserId),
        ("slackUserId", .str u.slackUserId)]

/-- `getTeam`: DynamoDB point lookup on the teams table followed by
reconstruction of a `Team` from the raw item. -/
def getTeam (teams : Table Team) (victorOpsGroupId : String) : Option Team :=
  match dbGet teams victorOpsGroupId with
  | none => none
  | some item => some (Team.mk item.victorOpsGroupId item.slackUserGroupId)

/-- `getUser`: DynamoDB point lookup on the users table followed by
reconstruction of a `User` from the raw item. -/
def getUser (users : Table User) (victorOpsUserId : String) : Option User :=
  match dbGet users victorOpsUserId with
  | none => none
  | some item => some (User.mk item.victorOpsUserId item.slackUserId)

/-- `updateSlackUserGroup` of the split-table revision: identical to the
first unnamed-file revision apart from an extra log line. -/
def updateSlackUserGroup (slackUserGroup slackUser botUserOAuthToken : String)
    (chat : ChatRequest → ChatResult) : Option Json × List ChatRequest :=
  let req : ChatRequest := ⟨slackUserGroup, slackUser, botUserOAuthToken⟩
  let resp := chat req
  if resp.ok then (some resp.body, [req]) else (none, [req])

/-- Output of the split-table `handleUpdateOnCall`. -/
structure UOCOutB where
  resp : JsResp
  secretGets : Nat
  chatCalls : List ChatRequest
  storeGets : Nat

/-- `handleUpdateOnCall` of the split-table revision: team lookup, user
lookup, secret retrieval, chat call, each short-circuiting to `null` on
absence. -/
def handleUpdateOnCall (event : Event) (w : WorldB) : UOCOutB :=
  match getTeam w.teams event.group with
  | none => ⟨.rnull, 0, [], 1⟩
  | some team =>
      match getUser w.users event.user with
      | none => ⟨.rnull, 0, [], 2⟩
      | some user =>
          match w.secret with
          | none => ⟨.rnull, 1, [], 2⟩
          | some sec =>
              let out := updateSlackUserGroup team.slackUserGroupId user.slackUserId sec w.chat
              match out.1 with
              | none => ⟨.withBody (.obj []), 1, out.2, 2⟩
              | some j => ⟨.withBody j, 1, out.2, 2⟩

/-- `handlePutTeam`: writes the `Team` built from the event's fields and
echoes the put acknowledgment. -/
def handlePutTeam (event : Event) (teams : Table Team) (putAck : Json) :
    Table Team × JsResp :=
  let team : Team := ⟨event.victorOpsGroupId, event.slackUserGroupId⟩
  (dbPut teams team.victorOpsGroupId team, .withBody putAck)

/-- `handleGetTeam`: body is the serialized `Team` or the empty object. -/
def handleGetTeam (event : Event) (teams : Table Team) : JsResp :=
  match getTeam teams event.victorOpsGroupId with
  | none => .withBody (.obj [])
  | some t => .withBody (encodeTeam t)

/-- `handleDeleteTeam`: deletes by key; the acknowledgment carries no
`Item`, so the body is always the empty object. -/
def handleDeleteTeam (event : Event) (teams : Table Team) : Table Team × JsResp :=
  (dbDelete teams event.victorOpsGroupId, .withBody (.obj []))

/-- `handlePutUser`: writes the `User` built from the event's fields and
echoes the put acknowledgment. -/
def handlePutUser (event : Event) (users : Table User) (putAck : Json) :
    Table User × JsResp :=
  let user : User := ⟨event.victorOpsUserId, event.slackUserId⟩
  (dbPut users user.victorOpsUserId user, .withBody putAck)

/-- `handleGetUser`: body is the serialized `User` or the empty object. -/
def handleGetUser (event : Event) (users : Table User) : JsResp :=
  match getUser users event.victorOpsUserId with
  | none => .withBody (.obj [])
  | some u => .withBody (encodeUser u)

/-- `handleDeleteUser`: deletes by key; the body is always the empty
object. -/
def handleDeleteUser (event : Event) (users : Table User) : Table User × JsResp :=
  (dbDelete users event.victorOpsUserId, .withBody (.obj []))

/-- The split-table dispatcher: a switch over the seven operation names,
with a log-only default branch leaving the result at the initial bare
empty object. -/
def handler (event : Event) (w : WorldB) : HandlerOutB :=
  if event.operation = "updateOnCall" then
    let o := handleUpdateOnCall event w
    ⟨.ok o.resp, w.teams, w.users, o.secretGets, o.chatCalls, o.storeGets, 0, 0⟩
  else if event.operation = "putTeam" then
    let o := handlePutTeam event w.teams w.putAck
    ⟨.ok o.2, o.1, w.users, 0, [], 0, 1, 0⟩
  else if event.operation = "getTeam" then
    ⟨.ok (handleGetTeam event w.teams), w.teams, w.users, 0, [], 1, 0, 0⟩
  else if event.operation = "deleteTeam" then
    let o := handleDeleteTeam event w.teams
    ⟨.ok o.2, o.1, w.users, 0, [], 0, 0, 1⟩
  else if event.operation = "putUser" then
    let o := handlePutUser event w.users w.putAck
    ⟨.ok o.2, w.teams, o.1, 0, [], 0, 1, 0⟩
  else if event.operation = "getUser" then
    ⟨.ok (handleGetUser event w.users), w.teams, w.users, 0, [], 1, 0, 0⟩
  else if event.operation = "deleteUser" then
    let o := handleDeleteUser event w.users
    ⟨.ok o.2, w.teams, o.1, 0, [], 0, 0, 1⟩
  else
    ⟨.ok .emptyObj, w.teams, w.users, 0, [], 0, 0, 0⟩

end VariantB

/-! ## Helper lemmas -/

/-- The for-loop member lookup of `src/index.js` and the `find?`-based one
of the unnamed-file revision compute the same function. -/
theorem getSlackUserIdGo_eq_find (ms : List Member) (u : String) :
    IndexJs.getSlackUserIdGo ms u =
      (ms.find? (fun m => m.victorOpsUserId == u)).map Member.slackUserId := by
  induction ms with
  | nil => rfl
  | cons m ms ih =>
      by_cases h : m.victorOpsUserId == u
      · simp [IndexJs.getSlackUserIdGo, List.find?, h]
      · simp only [Bool.not_eq_true] at h
        simp [IndexJs.getSlackUserIdGo, List.find?, h, ih]

/-- Both member lookups agree on whole records. -/
theorem IndexJs.getSlackUserId_eq (r : Record) (u : String) :
    IndexJs.getSlackUserId r u = r.getSlackUserId u :=
  getSlackUserIdGo_eq_find r.members u

/-- Rebuilding a `Member` from its two fields is the identity. -/
theorem Member.eta_map (ms : List Member) :
    ms.map (fun m => Member.mk m.victorOpsUserId m.slackUserId) = ms := by
  induction ms with
  | nil => rfl
  | cons m ms ih => simp [ih]

/-- A point lookup immediately after a put of the same key returns the
item just written. -/
theorem dbGet_dbPut_self {α : Type} (s : Table α) (k : String) (v : α) :
    dbGet (dbPut s k v) k = some v := by
  simp [dbGet, dbPut, List.find?]

/-- A point lookup after a put of a different key is unaffected by the
put. -/
theorem dbGet_dbPut_other {α : Type} (s : Table α) (k k' : String) (v : α)
    (h : k' ≠ k) : dbGet (dbPut s k v) k' = dbGet s k' := by
  simp only [dbGet, dbPut, List.find?]
  have hk : (k == k') = false := by
    simp [beq_iff_eq]
    exact fun hk => h hk.symm
  simp only [hk]
  induction s with
  | nil => rfl
  | cons p s ih =>
      by_cases hp : p.1 == k'
      · have hp' : (p.1 != k) = true := by
          simp only [bne_iff_ne, ne_eq]
          intro hpk
          rw [beq_iff_eq] at hp
          exact h (hp ▸ hpk ▸ rfl)
        simp [List.filter, hp', List.find?, hp]
      · simp only [Bool.not_eq_true] at hp
        by_cases hq : p.1 != k
        · simp only [List.filter, hq, List.find?, hp]
          simpa [List.filter, hq, List.find?, hp] using ih
        · simp only [Bool.not_eq_true] at hq
          simp only [List.filter, hq, List.find?, hp]
          simpa [List.filter, hq, List.find?, hp] using ih

/-- Two puts under the same key leave exactly the store of the second put:
the first write is completely replaced. -/
theorem dbPut_dbPut {α : Type} (s : Table α) (k : String) (v₁ v₂ : α) :
    dbPut (dbPut s k v₁) k v₂ = dbPut s k v₂ := by
  simp [dbPut, List.filter_filter]

/-- `getRotation` right after a rotation put returns exactly the record
written: the raw item is rebuilt field by field into an equal `Record`. -/
theorem getRotation_dbPut (s : Table Record) (r : Record) :
    getRotation (dbPut s r.victorOpsGroupId r) r.victorOpsGroupId = some r := by
  simp [getRotation, dbGet_dbPut_self, Member.eta_map]

/-! ## Claim theorems -/

/-- C1: for every stored mapping record and every updateOnCall event
whose group resolves to that record, whose user matches a member, and
whose secret retrieval succeeds, the relay issues exactly one outbound
POST whose JSON body is the record's Slack user group id under
`usergroup` and the matched member's Slack user id under `users`. -/
theorem C1_relay_posts_single_update (event : Event) (w : World)
    (record : Record) (su sec : String)
    (hrec : getRotation w.store event.group = some record)
    (hsu : record.getSlackUserId event.user = some su)
    (hsec : w.secret = some sec) :
    (Part002.handleUpdateOnCall event w).chatCalls =
      [ChatRequest.mk record.slackUserGroupId su sec] := by
  simp only [Part002.handleUpdateOnCall, hrec, hsu, hsec,
    Part002.updateSlackUserGroup]
  by_cases h : (w.chat ⟨record.slackUserGroupId, su, sec⟩).ok <;> simp [h]

/-- Witness for C1: with the mapping of the claim's concrete example and
the event pairing group G1 with user U2, the single POST body is
usergroup SG1, users S2. -/
theorem C1_relay_posts_single_update_witness :
    (Part002.handleUpdateOnCall
        ⟨"updateOnCall", "G1", "U2", "", "", "", "", none⟩
        ⟨[("G1", ⟨"G1", "SG1", [⟨"U1", "S1"⟩, ⟨"U2", "S2"⟩]⟩)], some "tok",
          fun _ => ⟨true, Json.obj []⟩, Json.obj []⟩).chatCalls =
      [ChatRequest.mk "SG1" "S2" "tok"] :=
  C1_relay_posts_single_update _ _ ⟨"G1", "SG1", [⟨"U1", "S1"⟩, ⟨"U2", "S2"⟩]⟩
    "S2" "tok" rfl rfl rfl

/-- C2 counterexample: in the `src/index.js` revision the secret IS
retrieved on the no-matching-member path, contrary to the claim's "it
does not retrieve the secret": with a stored record for G1 whose only
member is U1 and an event for user U2, the relay returns null and issues
no chat call, yet performs one secret retrieval. -/
theorem C2_counterexample :
    (IndexJs.handleUpdateOnCall
        ⟨"updateOnCall", "G1", "U2", "", "", "", "", none⟩
        ⟨[("G1", ⟨"G1", "SG1", [⟨"U1", "S1"⟩]⟩)], some "tok",
          fun _ => ⟨true, Json.obj []⟩, Json.obj []⟩).resp = JsResp.rnull ∧
    (IndexJs.handleUpdateOnCall
        ⟨"updateOnCall", "G1", "U2", "", "", "", "", none⟩
        ⟨[("G1", ⟨"G1", "SG1", [⟨"U1", "S1"⟩]⟩)], some "tok",
          fun _ => ⟨true, Json.obj []⟩, Json.obj []⟩).chatCalls = [] ∧
    (IndexJs.handleUpdateOnCall
        ⟨"updateOnCall", "G1", "U2", "", "", "", "", none⟩
        ⟨[("G1", ⟨"G1", "SG1", [⟨"U1", "S1"⟩]⟩)], some "tok",
          fun _ => ⟨true, Json.obj []⟩, Json.obj []⟩).secretGets = 1 :=
  ⟨rfl, rfl, rfl⟩

/-- C2 as amended: when the group resolves to a record but the user
matches no member, both variant-A revisions return null and issue zero
chat-API calls; the unnamed-file revision performs no secret retrieval on
this path, while `src/index.js` retrieves the secret exactly once before
its null checks. -/
theorem C2_amended_short_circuit (event : Event) (w : World) (record : Record)
    (hrec : getRotation w.store event.group = some record)
    (hsu : record.getSlackUserId event.user = none) :
    ((Part002.handleUpdateOnCall event w).resp = JsResp.rnull ∧
     (Part002.handleUpdateOnCall event w).chatCalls = [] ∧
     (Part002.handleUpdateOnCall event w).secretGets = 0) ∧
    ((IndexJs.handleUpdateOnCall event w).resp = JsResp.rnull ∧
     (IndexJs.handleUpdateOnCall event w).chatCalls = [] ∧
     (IndexJs.handleUpdateOnCall event w).secretGets = 1) := by
  have hsu' : IndexJs.getSlackUserId record event.user = none := by
    rw [IndexJs.getSlackUserId_eq]; exact hsu
  constructor
  · simp [Part002.handleUpdateOnCall, hrec, hsu]
  · simp [IndexJs.handleUpdateOnCall, hrec, hsu']

/-- Witness for the amended C2, at the counterexample's concrete input. -/
theorem C2_amended_short_circuit_witness :
    ((Part002.handleUpdateOnCall
        ⟨"updateOnCall", "G1", "U2", "", "", "", "", none⟩
        ⟨[("G1", ⟨"G1", "SG1", [⟨"U1", "S1"⟩]⟩)], some "tok",
          fun _ => ⟨true, Json.obj []⟩, Json.obj []⟩).resp = JsResp.rnull ∧
     (Part002.handleUpdateOnCall
        ⟨"updateOnCall", "G1", "U2", "", "", "", "", none⟩
        ⟨[("G1", ⟨"G1", "SG1", [⟨"U1", "S1"⟩]⟩)], some "tok",
          fun _ => ⟨true, Json.obj []⟩, Json.obj []⟩).chatCalls = [] ∧
     (Part002.handleUpdateOnCall
        ⟨"updateOnCall", "G1", "U2", "", "", "", "", none⟩
        ⟨[("G1", ⟨"G1", "SG1", [⟨"U1", "S1"⟩]⟩)], some "tok",
          fun _ => ⟨true, Json.obj []⟩, Json.obj []⟩).secretGets = 0) ∧
    ((IndexJs.handleUpdateOnCall
        ⟨"updateOnCall", "G1", "U2", "", "", "", "", none⟩
        ⟨[("G1", ⟨"G1", "SG1", [⟨"U1", "S1"⟩]⟩)], some "tok",
          fun _ => ⟨true, Json.obj []⟩, Json.obj []⟩).resp = JsResp.rnull ∧
     (IndexJs.handleUpdateOnCall
        ⟨"updateOnCall", "G1", "U2", "", "", "", "", none⟩
        ⟨[("G1", ⟨"G1", "SG1", [⟨"U1", "S1"⟩]⟩)], some "tok",
          fun _ => ⟨true, Json.obj []⟩, Json.obj []⟩).chatCalls = [] ∧
     (IndexJs.handleUpdateOnCall
        ⟨"updateOnCall", "G1", "U2", "", "", "", "", none⟩
        ⟨[("G1", ⟨"G1", "SG1", [⟨"U1", "S1"⟩]⟩)], some "tok",
          fun _ => ⟨true, Json.obj []⟩, Json.obj []⟩).secretGets = 1) :=
  C2_amended_short_circuit _ _ ⟨"G1", "SG1", [⟨"U1", "S1"⟩]⟩ rfl rfl

/-- C3 counterexample: in the `src/index.js` revision there is no HTTP
status check, so when the chat API answers every request with a
non-success status and an error body, the relay still parses that body
and returns it to the caller — contradicting "returns absence" and "the
chat API's response body is not relayed". -/
theorem C3_counterexample :
    (IndexJs.handleUpdateOnCall
        ⟨"updateOnCall", "G1", "U1", "", "", "", "", none⟩
        ⟨[("G1", ⟨"G1", "SG1", [⟨"U1", "S1"⟩]⟩)], some "tok",
          fun _ => ⟨false, Json.obj [("error", Json.str "ratelimited")]⟩,
          Json.obj []⟩).resp =
      JsResp.withBody (Json.obj [("error", Json.str "ratelimited")]) :=
  rfl

/-- C3 as amended: on a non-success HTTP status, the unnamed-file
revision's updater returns no parsed response and updateOnCall wraps the
empty object, with exactly one chat call (no retry); the `src/index.js`
revision, lacking the status check, relays the parsed response body even
on failure. -/
theorem C3_amended_non_success (event : Event) (w : World) (record : Record)
    (su sec : String)
    (hrec : getRotation w.store event.group = some record)
    (hsu : record.getSlackUserId event.user = some su)
    (hsec : w.secret = some sec)
    (hok : (w.chat ⟨record.slackUserGroupId, su, sec⟩).ok = false) :
    ((Part002.handleUpdateOnCall event w).resp = JsResp.withBody (Json.obj []) ∧
     (Part002.handleUpdateOnCall event w).chatCalls =
       [ChatRequest.mk record.slackUserGroupId su sec]) ∧
    (IndexJs.handleUpdateOnCall event w).resp =
      JsResp.withBody (w.chat ⟨record.slackUserGroupId, su, sec⟩).body := by
  have hsu' : IndexJs.getSlackUserId record event.user = some su := by
    rw [IndexJs.getSlackUserId_eq]; exact hsu
  constructor
  · simp [Part002.handleUpdateOnCall, hrec, hsu, hsec,
      Part002.updateSlackUserGroup, hok]
  · simp [IndexJs.handleUpdateOnCall, hrec, hsu', hsec,
      IndexJs.updateSlackUserGroup]

/-- Witness for the amended C3, with a chat API that rejects every
request with an error body. -/
theorem C3_amended_non_success_witness :
    ((Part002.handleUpdateOnCall
        ⟨"updateOnCall", "G1", "U1", "", "", "", "", none⟩
        ⟨[("G1", ⟨"G1", "SG1", [⟨"U1", "S1"⟩]⟩)], some "tok",
          fun _ => ⟨false, Json.obj [("error", Json.str "ratelimited")]⟩,
          Json.obj []⟩).resp = JsResp.withBody (Json.obj []) ∧
     (Part002.handleUpdateOnCall
        ⟨"updateOnCall", "G1", "U1", "", "", "", "", none⟩
        ⟨[("G1", ⟨"G1", "SG1", [⟨"U1", "S1"⟩]⟩)], some "tok",
          fun _ => ⟨false, Json.obj [("error", Json.str "ratelimited")]⟩,
          Json.obj []⟩).chatCalls = [ChatRequest.mk "SG1" "S1" "tok"]) ∧
    (IndexJs.handleUpdateOnCall
        ⟨"updateOnCall", "G1", "U1", "", "", "", "", none⟩
        ⟨[("G1", ⟨"G1", "SG1", [⟨"U1", "S1"⟩]⟩)], some "tok",
          fun _ => ⟨false, Json.obj [("error", Json.str "ratelimited")]⟩,
          Json.obj []⟩).resp =
      JsResp.withBody (Json.obj [("error", Json.str "ratelimited")]) :=
  C3_amended_non_success _ _ ⟨"G1", "SG1", [⟨"U1", "S1"⟩]⟩ "S1" "tok"
    rfl rfl rfl rfl

/-- C5: with a record stored for G1, `getRotation` finds it, and the
unnamed-file revision's `handleGetRotation` returns it serialized — but
the `src/index.js` revision reads the nonexistent `Item` property off the
returned `Record` and answers with the empty object even though the
record exists.  This evaluates all three at the failing input. -/
theorem C5_get_rotation_divergence :
    getRotation [("G1", ⟨"G1", "SG1", [⟨"U1", "S1"⟩]⟩)] "G1" =
      some ⟨"G1", "SG1", [⟨"U1", "S1"⟩]⟩ ∧
    IndexJs.handleGetRotation ⟨"getRotation", "", "", "G1", "", "", "", none⟩
        [("G1", ⟨"G1", "SG1", [⟨"U1", "S1"⟩]⟩)] = JsResp.withBody (Json.obj []) ∧
    Part002.handleGetRotation ⟨"getRotation", "", "", "G1", "", "", "", none⟩
        [("G1", ⟨"G1", "SG1", [⟨"U1", "S1"⟩]⟩)] =
      JsResp.withBody (encodeRecord ⟨"G1", "SG1", [⟨"U1", "S1"⟩]⟩) :=
  ⟨rfl, rfl, rfl⟩

/-- C6: when the member list contains two entries with the same VictorOps
user id, both implementations of the member lookup return the Slack user
id of the first occurrence in stored order. -/
theorem C6_first_duplicate_wins (g sg u : String) (pre mid post : List Member)
    (m₁ m₂ : Member)
    (hpre : ∀ m ∈ pre, m.victorOpsUserId ≠ u)
    (h₁ : m₁.victorOpsUserId = u) (_h₂ : m₂.victorOpsUserId = u) :
    (Record.mk g sg (pre ++ m₁ :: mid ++ m₂ :: post)).getSlackUserId u =
        some m₁.slackUserId ∧
    IndexJs.getSlackUserId (Record.mk g sg (pre ++ m₁ :: mid ++ m₂ :: post)) u =
        some m₁.slackUserId := by
  have key : ∀ l : List Member, (∀ m ∈ l, m.victorOpsUserId ≠ u) →
      (l ++ m₁ :: mid ++ m₂ :: post).find? (fun m => m.victorOpsUserId == u) =
        some m₁ := by
    intro l hl
    induction l with
    | nil => simp [List.find?, h₁]
    | cons a l ih =>
        have ha : (a.victorOpsUserId == u) = false := by
          simp only [beq_eq_false_iff_ne, ne_eq]
          exact hl a (by simp)
        simp only [List.cons_append, List.find?, ha]
        exact ih (fun m hm => hl m (by simp [hm]))
  constructor
  · show ((pre ++ m₁ :: mid ++ m₂ :: post).find?
        (fun m => m.victorOpsUserId == u)).map Member.slackUserId =
      some m₁.slackUserId
    rw [key pre hpre]
    rfl
  · rw [IndexJs.getSlackUserId_eq]
    show ((pre ++ m₁ :: mid ++ m₂ :: post).find?
        (fun m => m.victorOpsUserId == u)).map Member.slackUserId =
      some m₁.slackUserId
    rw [key pre hpre]
    rfl

/-- Witness for C6: members U1 mapping to S1 and then U1 mapping to S2;
the lookup of U1 returns S1, the first occurrence's target. -/
theorem C6_first_duplicate_wins_witness :
    (Record.mk "G1" "SG1" [⟨"U1", "S1"⟩, ⟨"U1", "S2"⟩]).getSlackUserId "U1" =
        some "S1" ∧
    IndexJs.getSlackUserId
        (Record.mk "G1" "SG1" [⟨"U1", "S1"⟩, ⟨"U1", "S2"⟩]) "U1" = some "S1" :=
  C6_first_duplicate_wins "G1" "SG1" "U1" [] [] [] ⟨"U1", "S1"⟩ ⟨"U1", "S2"⟩
    (by simp) rfl rfl

/-- C7: whenever secret retrieval returns absence, updateOnCall in both
variant-A revisions returns null and attempts no outbound chat-API
call, regardless of the event and the stored mappings. -/
theorem C7_missing_secret_no_call (event : Event) (w : World)
    (hsec : w.secret = none) :
    ((IndexJs.handleUpdateOnCall event w).resp = JsResp.rnull ∧
     (IndexJs.handleUpdateOnCall event w).chatCalls = []) ∧
    ((Part002.handleUpdateOnCall event w).resp = JsResp.rnull ∧
     (Part002.handleUpdateOnCall event w).chatCalls = []) := by
  constructor
  · cases hg : getRotation w.store event.group with
    | none => simp [IndexJs.handleUpdateOnCall, hg]
    | some record =>
        cases hu : IndexJs.getSlackUserId record event.user with
        | none => simp [IndexJs.handleUpdateOnCall, hg, hu, hsec]
        | some su => simp [IndexJs.handleUpdateOnCall, hg, hu, hsec]
  · cases hg : getRotation w.store event.group with
    | none => simp [Part002.handleUpdateOnCall, hg]
    | some record =>
        cases hu : record.getSlackUserId event.user with
        | none => simp [Part002.handleUpdateOnCall, hg, hu, hsec]
        | some su => simp [Part002.handleUpdateOnCall, hg, hu, hsec]

/-- Witness for C7: record and member both resolve, but the secret is
absent — the result is null and no chat call is issued. -/
theorem C7_missing_secret_no_call_witness :
    ((IndexJs.handleUpdateOnCall
        ⟨"updateOnCall", "G1", "U1", "", "", "", "", none⟩
        ⟨[("G1", ⟨"G1", "SG1", [⟨"U1", "S1"⟩]⟩)], none,
          fun _ => ⟨true, Json.obj []⟩, Json.obj []⟩).resp = JsResp.rnull ∧
     (IndexJs.handleUpdateOnCall
        ⟨"updateOnCall", "G1", "U1", "", "", "", "", none⟩
        ⟨[("G1", ⟨"G1", "SG1", [⟨"U1", "S1"⟩]⟩)], none,
          fun _ => ⟨true, Json.obj []⟩, Json.obj []⟩).chatCalls = []) ∧
    ((Part002.handleUpdateOnCall
        ⟨"updateOnCall", "G1", "U1", "", "", "", "", none⟩
        ⟨[("G1", ⟨"G1", "SG1", [⟨"U1", "S1"⟩]⟩)], none,
          fun _ => ⟨true, Json.obj []⟩, Json.obj []⟩).resp = JsResp.rnull ∧
     (Part002.handleUpdateOnCall
        ⟨"updateOnCall", "G1", "U1", "", "", "", "", none⟩
        ⟨[("G1", ⟨"G1", "SG1", [⟨"U1", "S1"⟩]⟩)], none,
          fun _ => ⟨true, Json.obj []⟩, Json.obj []⟩).chatCalls = []) :=
  C7_missing_secret_no_call _ _ rfl

/-- C8: a putRotation followed by a getRotation with the written key
returns a record equal to the one written, and a second putRotation with
the same key leaves exactly the store of a single put of the second
record — the first write is fully overwritten, nothing is merged. -/
theorem C8_put_get_roundtrip_overwrite (store : Table Record) (e₁ e₂ : Event)
    (ms₁ ms₂ : List Member) (ack₁ ack₂ : Json)
    (h₁ : e₁.members = some ms₁) (h₂ : e₂.members = some ms₂)
    (hkey : e₂.victorOpsGroupId = e₁.victorOpsGroupId) :
    ∃ s₁ : Table Record,
      Part002.handlePutRotation e₁ store ack₁ =
        Except.ok (s₁, JsResp.withBody ack₁) ∧
      getRotation s₁ e₁.victorOpsGroupId =
        some ⟨e₁.victorOpsGroupId, e₁.slackUserGroupId, ms₁⟩ ∧
      Part002.handlePutRotation e₂ s₁ ack₂ =
        Except.ok (dbPut store e₂.victorOpsGroupId
            ⟨e₂.victorOpsGroupId, e₂.slackUserGroupId, ms₂⟩,
          JsResp.withBody ack₂) := by
  refine ⟨dbPut store e₁.victorOpsGroupId
      ⟨e₁.victorOpsGroupId, e₁.slackUserGroupId, ms₁⟩, ?_, ?_, ?_⟩
  · simp [Part002.handlePutRotation, h₁, Member.eta_map]
  · simpa using
      getRotation_dbPut store ⟨e₁.victorOpsGroupId, e₁.slackUserGroupId, ms₁⟩
  · simp [Part002.handlePutRotation, h₂, Member.eta_map, hkey, dbPut_dbPut]

/-- Witness for C8: putting G1 with SGa/U1-S1, reading it back, then
putting G1 again with SGb/U2-S2 leaves exactly the second record. -/
theorem C8_put_get_roundtrip_overwrite_witness :
    ∃ s₁ : Table Record,
      Part002.handlePutRotation
          ⟨"putRotation", "", "", "G1", "SGa", "", "", some [⟨"U1", "S1"⟩]⟩
          [] (Json.obj []) = Except.ok (s₁, JsResp.withBody (Json.obj [])) ∧
      getRotation s₁ "G1" = some ⟨"G1", "SGa", [⟨"U1", "S1"⟩]⟩ ∧
      Part002.handlePutRotation
          ⟨"putRotation", "", "", "G1", "SGb", "", "", some [⟨"U2", "S2"⟩]⟩
          s₁ (Json.obj []) =
        Except.ok (dbPut [] "G1" ⟨"G1", "SGb", [⟨"U2", "S2"⟩]⟩,
          JsResp.withBody (Json.obj [])) :=
  C8_put_get_roundtrip_overwrite [] _ _ [⟨"U1", "S1"⟩] [⟨"U2", "S2"⟩]
    (Json.obj []) (Json.obj []) rfl rfl rfl

/-- C9: for an operation string outside the enumerated set of every
dispatcher, all three revisions return the bare empty object without
failing the invocation, leave every table untouched, and perform zero
secret, chat-API, and store accesses. -/
theorem C9_unrecognized_operation (event : Event) (w : World)
    (wb : VariantB.WorldB)
    (hA : event.operation ∉
      (["updateOnCall", "putRotation", "getRotation", "deleteRotation"] :
        List String))
    (hB : event.operation ∉
      (["updateOnCall", "putTeam", "getTeam", "deleteTeam", "putUser",
        "getUser", "deleteUser"] : List String)) :
    IndexJs.handler event w =
      ⟨Except.ok JsResp.emptyObj, w.store, 0, [], 0, 0, 0⟩ ∧
    Part002.handler event w =
      ⟨Except.ok JsResp.emptyObj, w.store, 0, [], 0, 0, 0⟩ ∧
    VariantB.handler event wb =
      ⟨Except.ok JsResp.emptyObj, wb.teams, wb.users, 0, [], 0, 0, 0⟩ := by
  simp only [List.mem_cons, List.mem_singleton, not_or] at hA hB
  obtain ⟨h1, h2, h3, h4, -⟩ := hA
  obtain ⟨g1, g2, g3, g4, g5, g6, g7, -⟩ := hB
  refine ⟨?_, ?_, ?_⟩
  · simp [IndexJs.handler, h1, h2, h3, h4]
  · simp [Part002.handler, h1, h2, h3, h4]
  · simp [VariantB.handler, g1, g2, g3, g4, g5, g6, g7]

/-- Witness for C9, with the unrecognized operation name "frobnicate". -/
theorem C9_unrecognized_operation_witness :
    IndexJs.handler ⟨"frobnicate", "", "", "", "", "", "", none⟩
        ⟨[], none, fun _ => ⟨true, Json.obj []⟩, Json.obj []⟩ =
      ⟨Except.ok JsResp.emptyObj, [], 0, [], 0, 0, 0⟩ ∧
    Part002.handler ⟨"frobnicate", "", "", "", "", "", "", none⟩
        ⟨[], none, fun _ => ⟨true, Json.obj []⟩, Json.obj []⟩ =
      ⟨Except.ok JsResp.emptyObj, [], 0, [], 0, 0, 0⟩ ∧
    VariantB.handler ⟨"frobnicate", "", "", "", "", "", "", none⟩
        ⟨[], [], none, fun _ => ⟨true, Json.obj []⟩, Json.obj []⟩ =
      ⟨Except.ok JsResp.emptyObj, [], [], 0, [], 0, 0, 0⟩ :=
  C9_unrecognized_operation _ _ _ (by decide) (by decide)

/-- C10: a putRotation event whose members field is absent makes both
variant-A dispatchers fail with a TypeError (mapping over an undefined
value) before any store write: the invocation errors, the store is
unchanged, and zero puts and outbound calls happen. -/
theorem C10_put_missing_members_throws (event : Event) (w : World)
    (hop : event.operation = "putRotation") (hm : event.members = none) :
    IndexJs.handler event w =
      ⟨Except.error JsError.typeError, w.store, 0, [], 0, 0, 0⟩ ∧
    Part002.handler event w =
      ⟨Except.error JsError.typeError, w.store, 0, [], 0, 0, 0⟩ := by
  constructor
  · simp [IndexJs.handler, hop, IndexJs.handlePutRotation, hm]
  · simp [Part002.handler, hop, Part002.handlePutRotation, hm]

/-- Witness for C10: an otherwise well-formed putRotation event carrying
no members list. -/
theorem C10_put_missing_members_throws_witness :
    IndexJs.handler ⟨"putRotation", "", "", "G1", "SG1", "", "", none⟩
        ⟨[], none, fun _ => ⟨true, Json.obj []⟩, Json.obj []⟩ =
      ⟨Except.error JsError.typeError, [], 0, [], 0, 0, 0⟩ ∧
    Part002.handler ⟨"putRotation", "", "", "G1", "SG1", "", "", none⟩
        ⟨[], none, fun _ => ⟨true, Json.obj []⟩, Json.obj []⟩ =
      ⟨Except.error JsError.typeError, [], 0, [], 0, 0, 0⟩ :=
  C10_put_missing_members_throws _ _ rfl rfl

/-- The updateOnCall result of the unnamed-file revision is always either
null or a body-carrying object. -/
theorem part002_uoc_resp_shape (event : Event) (w : World) :
    (Part002.handleUpdateOnCall event w).resp = JsResp.rnull ∨
      ∃ j, (Part002.handleUpdateOnCall event w).resp = JsResp.withBody j := by
  cases hg : getRotation w.store event.group with
  | none => left; simp [Part002.handleUpdateOnCall, hg]
  | some record =>
      cases hu : record.getSlackUserId event.user with
      | none => left; simp [Part002.handleUpdateOnCall, hg, hu]
      | some su =>
          cases hs : w.secret with
          | none => left; simp [Part002.handleUpdateOnCall, hg, hu, hs]
          | some sec =>
              right
              cases ho : (Part002.updateSlackUserGroup record.slackUserGroupId
                  su sec w.chat).1 with
              | none =>
                  exact ⟨Json.obj [],
                    by simp [Part002.handleUpdateOnCall, hg, hu, hs, ho]⟩
              | some j =>
                  exact ⟨j, by simp [Part002.handleUpdateOnCall, hg, hu, hs, ho]⟩

/-- The updateOnCall result of the `src/index.js` revision is always
either null or a body-carrying object. -/
theorem indexJs_uoc_resp_shape (event : Event) (w : World) :
    (IndexJs.handleUpdateOnCall event w).resp = JsResp.rnull ∨
      ∃ j, (IndexJs.handleUpdateOnCall event w).resp = JsResp.withBody j := by
  cases hg : getRotation w.store event.group with
  | none => left; simp [IndexJs.handleUpdateOnCall, hg]
  | some record =>
      cases hu : IndexJs.getSlackUserId record event.user with
      | none => left; simp [IndexJs.handleUpdateOnCall, hg, hu]
      | some su =>
          cases hs : w.secret with
          | none => left; simp [IndexJs.handleUpdateOnCall, hg, hu, hs]
          | some sec =>
              right
              exact ⟨(w.chat ⟨record.slackUserGroupId, su, sec⟩).body,
                by simp [IndexJs.handleUpdateOnCall, hg, hu, hs,
                  IndexJs.updateSlackUserGroup]⟩

/-- The unnamed-file revision's getRotation handler always answers with a
body-carrying object. -/
theorem part002_handleGetRotation_shape (event : Event) (s : Table Record) :
    ∃ j, Part002.handleGetRotation event s = JsResp.withBody j := by
  cases hg : getRotation s event.victorOpsGroupId with
  | none => exact ⟨Json.obj [], by simp [Part002.handleGetRotation, hg]⟩
  | some r => exact ⟨encodeRecord r, by simp [Part002.handleGetRotation, hg]⟩

/-- The `src/index.js` getRotation handler always answers with the empty
object as its body. -/
theorem indexJs_handleGetRotation_shape (event : Event) (s : Table Record) :
    IndexJs.handleGetRotation event s = JsResp.withBody (Json.obj []) := by
  cases hg : getRotation s event.victorOpsGroupId with
  | none => simp [IndexJs.handleGetRotation, hg]
  | some r => simp [IndexJs.handleGetRotation, hg]

/-- C4 counterexample: the claim says the top-level handler never returns
a null result, but an updateOnCall event whose group has no stored
mapping makes the dispatcher pass the relay's null straight through. -/
theorem C4_counterexample :
    (Part002.handler ⟨"updateOnCall", "G1", "U1", "", "", "", "", none⟩
        ⟨[], some "tok", fun _ => ⟨true, Json.obj []⟩, Json.obj []⟩).result =
      Except.ok JsResp.rnull :=
  rfl

/-- C4 as amended: handlers that complete return an object with a
JSON-serialized body (absence inside a body is the empty object), except
that an updateOnCall invocation may return null when a step
short-circuits, an unrecognized operation yields the bare initial empty
object, and in `src/index.js` putRotation also returns a bare empty
object. -/
theorem C4_amended_response_shape (event : Event) (w : World)
    (hput : event.operation = "putRotation" →
      ∃ ms, event.members = some ms) :
    (∃ r, (Part002.handler event w).result = Except.ok r ∧
      ((∃ j, r = JsResp.withBody j) ∨
       (r = JsResp.rnull ∧ event.operation = "updateOnCall") ∨
       (r = JsResp.emptyObj ∧ event.operation ∉
         (["updateOnCall", "putRotation", "getRotation", "deleteRotation"] :
           List String)))) ∧
    (∃ r, (IndexJs.handler event w).result = Except.ok r ∧
      ((∃ j, r = JsResp.withBody j) ∨
       (r = JsResp.rnull ∧ event.operation = "updateOnCall") ∨
       (r = JsResp.emptyObj ∧ (event.operation = "putRotation" ∨
         event.operation ∉
           (["updateOnCall", "putRotation", "getRotation", "deleteRotation"] :
             List String))))) := by
  by_cases hop1 : event.operation = "updateOnCall"
  · constructor
    · refine ⟨(Part002.handleUpdateOnCall event w).resp, ?_, ?_⟩
      · simp [Part002.handler, hop1]
      · rcases part002_uoc_resp_shape event w with h | ⟨j, h⟩
        · exact Or.inr (Or.inl ⟨h, hop1⟩)
        · exact Or.inl ⟨j, h⟩
    · refine ⟨(IndexJs.handleUpdateOnCall event w).resp, ?_, ?_⟩
      · simp [IndexJs.handler, hop1]
      · rcases indexJs_uoc_resp_shape event w with h | ⟨j, h⟩
        · exact Or.inr (Or.inl ⟨h, hop1⟩)
        · exact Or.inl ⟨j, h⟩
  · by_cases hop2 : event.operation = "putRotation"
    · obtain ⟨ms, hms⟩ := hput hop2
      constructor
      · refine ⟨JsResp.withBody w.putAck, ?_, Or.inl ⟨w.putAck, rfl⟩⟩
        simp [Part002.handler, hop1, hop2, Part002.handlePutRotation, hms]
      · refine ⟨JsResp.emptyObj, ?_, Or.inr (Or.inr ⟨rfl, Or.inl hop2⟩)⟩
        simp [IndexJs.handler, hop1, hop2, IndexJs.handlePutRotation, hms]
    · by_cases hop3 : event.operation = "getRotation"
      · constructor
        · obtain ⟨j, hj⟩ := part002_handleGetRotation_shape event w.store
          refine ⟨JsResp.withBody j, ?_, Or.inl ⟨j, rfl⟩⟩
          simp [Part002.handler, hop1, hop2, hop3, hj]
        · refine ⟨JsResp.withBody (Json.obj []), ?_,
            Or.inl ⟨Json.obj [], rfl⟩⟩
          simp [IndexJs.handler, hop1, hop2, hop3,
            indexJs_handleGetRotation_shape]
      · by_cases hop4 : event.operation = "deleteRotation"
        · constructor
          · refine ⟨JsResp.withBody (Json.obj []), ?_,
              Or.inl ⟨Json.obj [], rfl⟩⟩
            simp [Part002.handler, hop1, hop2, hop3, hop4,
              Part002.handleDeleteRotation]
          · refine ⟨JsResp.withBody (Json.obj []), ?_,
              Or.inl ⟨Json.obj [], rfl⟩⟩
            simp [IndexJs.handler, hop1, hop2, hop3, hop4,
              IndexJs.handleDeleteRotation]
        · have hnot : event.operation ∉
              (["updateOnCall", "putRotation", "getRotation",
                "deleteRotation"] : List String) := by
            simp [hop1, hop2, hop3, hop4]
          constructor
          · refine ⟨JsResp.emptyObj, ?_, Or.inr (Or.inr ⟨rfl, hnot⟩)⟩
            simp [Part002.handler, hop1, hop2, hop3, hop4]
          · refine ⟨JsResp.emptyObj, ?_,
              Or.inr (Or.inr ⟨rfl, Or.inr hnot⟩)⟩
            simp [IndexJs.handler, hop1, hop2, hop3, hop4]

/-- Witness for the amended C4, at a getRotation event over the empty
store: both dispatchers answer with a body-carrying object. -/
theorem C4_amended_response_shape_witness :
    (∃ r, (Part002.handler ⟨"getRotation", "", "", "G1", "", "", "", none⟩
        ⟨[], none, fun _ => ⟨true, Json.obj []⟩, Json.obj []⟩).result =
          Except.ok r ∧
      ((∃ j, r = JsResp.withBody j) ∨
       (r = JsResp.rnull ∧ "getRotation" = "updateOnCall") ∨
       (r = JsResp.emptyObj ∧ "getRotation" ∉
         (["updateOnCall", "putRotation", "getRotation", "deleteRotation"] :
           List String)))) ∧
    (∃ r, (IndexJs.handler ⟨"getRotation", "", "", "G1", "", "", "", none⟩
        ⟨[], none, fun _ => ⟨true, Json.obj []⟩, Json.obj []⟩).result =
          Except.ok r ∧
      ((∃ j, r = JsResp.withBody j) ∨
       (r = JsResp.rnull ∧ "getRotation" = "updateOnCall") ∨
       (r = JsResp.emptyObj ∧ ("getRotation" = "putRotation" ∨
         "getRotation" ∉
           (["updateOnCall", "putRotation", "getRotation", "deleteRotation"] :
             List String))))) :=
  C4_amended_response_shape _ _ (fun h => absurd h (by decide))

end RotationUpdater
